import Mathlib

/-!
Shallow embedding of `scripts/merge-docs-index.py` (Iron-Ham/Lists).

The script reads two JSON navigation-index documents (primary at
`{docs_dir}/index/index.json`, secondary at `{archive}/index/index.json`),
merges the secondary's `includedArchiveIdentifiers` into the primary's
(appending only identifiers not already present, preserving order), appends
the secondary's top-level `interfaceLanguages["swift"]` nodes to the
`children` of the first node of the primary's `"swift"` sequence when both
sequences are non-empty, writes the mutated primary back, and prints two
report lines.

JSON values are modelled by the shapes the script actually touches:
a navigation node carries an opaque payload (all fields other than
`children`, passed through unmodified) and an optional `children` list; a
document carries an optional identifier list, an optional
`interfaceLanguages` mapping (an association list from language name to
node sequence, mirroring a JSON object), and an opaque remainder. A file
whose read or JSON parse fails (missing file or malformed content) is
modelled as `none` in the file-system map.
-/

set_option autoImplicit false

namespace MergeDocsIndex

/-- A navigation node: `payload` stands for every field other than
`children` (the script passes them through untouched); `children` is
`none` when the JSON object has no `children` key. -/
inductive NavNode where
  | mk (payload : String) (children : Option (List NavNode)) : NavNode

/-- The `children` field of a node, `none` when absent. -/
def NavNode.children : NavNode → Option (List NavNode)
  | .mk _ c => c

/-- `node.get("children", [])` from line 46 of the script. -/
def NavNode.getChildren (n : NavNode) : List NavNode :=
  n.children.getD []

/-- `root["children"] = children` from line 48 of the script. -/
def NavNode.setChildren : NavNode → List NavNode → NavNode
  | .mk p _, cs => .mk p (some cs)

/-- `d.get(key, default)` on a JSON-object association list (Python dict
lookup; JSON objects parsed by the script have unique keys). -/
def lookupLang (key : String) : List (String × List NavNode) → Option (List NavNode)
  | [] => none
  | (k, v) :: rest => if k = key then some v else lookupLang key rest

/-- Replacing the sequence bound to `key` (the in-place mutation of the
list object stored under that key on lines 45-48). -/
def updateLang (key : String) (items : List NavNode) :
    List (String × List NavNode) → List (String × List NavNode)
  | [] => []
  | (k, v) :: rest =>
      (if k = key then (k, items) else (k, v)) :: updateLang key items rest

/-- A navigation index document.  `includedArchiveIdentifiers` and
`interfaceLanguages` are `none` when the key is absent from the JSON
object; `extra` stands for every other top-level field, passed through. -/
structure Doc where
  includedArchiveIdentifiers : Option (List String)
  interfaceLanguages : Option (List (String × List NavNode))
  extra : String

/-- `index.get("interfaceLanguages", {}).get("swift", [])`
(lines 40-41 of the script). -/
def Doc.swiftItems (d : Doc) : List NavNode :=
  (lookupLang "swift" (d.interfaceLanguages.getD [])).getD []

/-- Writing a new sequence under `"swift"` into the document's
`interfaceLanguages` (the aliasing mutation of lines 45-48: the swift list
is reachable from the document, so mutating its first element updates the
document). -/
def Doc.setSwift (d : Doc) (items : List NavNode) : Doc :=
  { d with interfaceLanguages := d.interfaceLanguages.map (updateLang "swift" items) }

/-- The identifier-merge loop of lines 34-36:
`for aid in listkit_ids: if aid not in archive_ids: archive_ids.append(aid)`.
The first argument is the accumulator `archive_ids`. -/
def mergeIdsLoop : List String → List String → List String
  | acc, [] => acc
  | acc, aid :: rest =>
    if aid ∈ acc then mergeIdsLoop acc rest
    else mergeIdsLoop (acc ++ [aid]) rest

/-- The merged identifier sequence produced from primary list `A` and
secondary list `B` (lines 32-37). -/
def mergedIds (A B : List String) : List String :=
  mergeIdsLoop A B

/-- The navigator-tree merge of lines 39-48: when both `"swift"` sequences
are non-empty, the first primary node (`root`) gets the whole secondary
sequence appended to its children; otherwise nothing happens. -/
def mergeNav (p s : Doc) : Doc :=
  match p.swiftItems, s.swiftItems with
  | root :: rest, _ :: _ =>
      p.setSwift (NavNode.setChildren root (root.getChildren ++ s.swiftItems) :: rest)
  | _, _ => p

/-- The in-memory merge of lines 31-48 applied to the two parsed documents:
returns the mutated primary document, the count later reported
(`len(listkit_items)`, line 53) and the identifier list later reported and
stored (lines 37 and 54). -/
def mergeDocs (lists_index listkit_index : Doc) : Doc × Nat × List String :=
  let archive_ids := mergedIds (lists_index.includedArchiveIdentifiers.getD [])
                               (listkit_index.includedArchiveIdentifiers.getD [])
  let lists1 : Doc := { lists_index with includedArchiveIdentifiers := some archive_ids }
  let lists2 := mergeNav lists1 listkit_index
  (lists2, listkit_index.swiftItems.length, archive_ids)

/-- One printed line of the script, kept structured: the usage line of
line 16, and the two report lines of lines 53-54. -/
inductive StdoutLine where
  | usage (prog : String)
  | mergedReport (count : Nat) (path : String)
  | identifiersReport (ids : List String)

/-- How a run ends: usage error (exit 1), an uncaught read/parse exception
(non-zero exit), or success (exit 0, carrying the reported count and
identifier list). -/
inductive Outcome where
  | usage
  | readError
  | ok (mergedCount : Nat) (archiveIds : List String)

/-- The process exit code of each outcome (Python exits 1 on `sys.exit(1)`
and on an uncaught exception, 0 on falling off the end of `main`). -/
def Outcome.exitCode : Outcome → Nat
  | .usage => 1
  | .readError => 1
  | .ok _ _ => 0

/-- Result of one whole run: the file system after the run (a map from
path to parsed content, `none` for a file that is missing or malformed),
the paths opened in order, the lines printed to standard output, and the
outcome. -/
structure ScriptResult where
  fs : String → Option Doc
  accessed : List String
  stdout : List StdoutLine
  outcome : Outcome

/-- The whole of `main` (lines 14-54): argument check, the two reads in
order (primary first), the in-memory merge, the write back to the primary
path, and the two report prints.  A read of a missing or malformed file
aborts before anything is written. -/
def script (argv : List String) (fs0 : String → Option Doc) : ScriptResult :=
  match argv with
  | [_prog, listkit_archive, docs_dir] =>
    let lists_index_path := docs_dir ++ "/index/index.json"
    let listkit_index_path := listkit_archive ++ "/index/index.json"
    match fs0 lists_index_path with
    | none => ⟨fs0, [lists_index_path], [], Outcome.readError⟩
    | some lists_index =>
      match fs0 listkit_index_path with
      | none => ⟨fs0, [lists_index_path, listkit_index_path], [], Outcome.readError⟩
      | some listkit_index =>
        let r := mergeDocs lists_index listkit_index
        ⟨fun path => if path = lists_index_path then some r.1 else fs0 path,
         [lists_index_path, listkit_index_path, lists_index_path],
         [StdoutLine.mergedReport r.2.1 lists_index_path,
          StdoutLine.identifiersReport r.2.2],
         Outcome.ok r.2.1 r.2.2⟩
  | _ => ⟨fs0, [], [StdoutLine.usage (argv.headD "")], Outcome.usage⟩

/-- Number of children of the root node of a document's `"swift"` sequence
(0 when the sequence is empty).  Used to measure how many entries a merge
actually added to the navigation tree. -/
def rootChildCount (d : Doc) : Nat :=
  match d.swiftItems with
  | [] => 0
  | r :: _ => r.getChildren.length

/-- How many secondary top-level entries a merge actually added to the
primary's navigation tree: the growth of the root's children count. -/
def actuallyMerged (p s : Doc) : Nat :=
  rootChildCount (mergeDocs p s).1 - rootChildCount p

/-! ### Lemmas about the identifier-merge loop -/

/-- Identifiers already accumulated survive the loop. -/
theorem mem_mergeIdsLoop_of_mem_acc {a : String} :
    ∀ (B acc : List String), a ∈ acc → a ∈ mergeIdsLoop acc B := by
  intro B
  induction B with
  | nil => intro acc h; simpa [mergeIdsLoop] using h
  | cons b rest ih =>
    intro acc h
    by_cases hb : b ∈ acc
    · simpa [mergeIdsLoop, hb] using ih acc h
    · simp only [mergeIdsLoop, hb, if_false]
      exact ih (acc ++ [b]) (List.mem_append_left _ h)

/-- Every secondary identifier ends up in the loop's result. -/
theorem mem_mergeIdsLoop_of_mem_right {a : String} :
    ∀ (B acc : List String), a ∈ B → a ∈ mergeIdsLoop acc B := by
  intro B
  induction B with
  | nil => intro acc h; cases h
  | cons b rest ih =>
    intro acc h
    rcases List.mem_cons.mp h with rfl | h
    · by_cases hb : a ∈ acc
      · simpa [mergeIdsLoop, hb] using mem_mergeIdsLoop_of_mem_acc rest acc hb
      · simp only [mergeIdsLoop, hb, if_false]
        exact mem_mergeIdsLoop_of_mem_acc rest _ (List.mem_append_right _ (by simp))
    · by_cases hb : b ∈ acc
      · simpa [mergeIdsLoop, hb] using ih acc h
      · simp only [mergeIdsLoop, hb, if_false]
        exact ih _ h

/-- When every secondary identifier is already accumulated, the loop
appends nothing. -/
theorem mergeIdsLoop_eq_of_subset :
    ∀ (B acc : List String), (∀ b ∈ B, b ∈ acc) → mergeIdsLoop acc B = acc := by
  intro B
  induction B with
  | nil => intro acc _; rfl
  | cons b rest ih =>
    intro acc h
    have hb : b ∈ acc := h b (by simp)
    simp only [mergeIdsLoop, hb, if_true]
    exact ih acc fun x hx => h x (by simp [hx])

/-- Merging the same secondary identifier list twice adds nothing the
second time. -/
theorem mergedIds_idem (A B : List String) :
    mergedIds (mergedIds A B) B = mergedIds A B := by
  unfold mergedIds
  exact mergeIdsLoop_eq_of_subset B _ fun b hb => mem_mergeIdsLoop_of_mem_right B A hb

/-- The loop never introduces a duplicate into the accumulator. -/
theorem mergeIdsLoop_nodup :
    ∀ (B acc : List String), acc.Nodup → (mergeIdsLoop acc B).Nodup := by
  intro B
  induction B with
  | nil => intro acc h; simpa [mergeIdsLoop] using h
  | cons b rest ih =>
    intro acc h
    by_cases hb : b ∈ acc
    · simpa [mergeIdsLoop, hb] using ih acc h
    · simp only [mergeIdsLoop, hb, if_false]
      exact ih (acc ++ [b]) (by simp [List.nodup_append, h, hb])

/-- On a duplicate-free secondary list the loop is exactly
"append the elements not already accumulated, in order". -/
theorem mergeIdsLoop_eq_append_filter :
    ∀ (B acc : List String), B.Nodup →
      mergeIdsLoop acc B = acc ++ B.filter (fun b => decide (b ∉ acc)) := by
  intro B
  induction B with
  | nil => intro acc _; simp [mergeIdsLoop]
  | cons b rest ih =>
    intro acc h
    rcases List.nodup_cons.mp h with ⟨hb_rest, hrest⟩
    by_cases hb : b ∈ acc
    · simp only [mergeIdsLoop, hb, if_true, List.filter_cons]
      rw [if_neg (by simp [hb])]
      exact ih acc hrest
    · simp only [mergeIdsLoop, hb, if_false, List.filter_cons]
      rw [if_pos (by simp [hb])]
      rw [ih (acc ++ [b]) hrest]
      have hfilter : rest.filter (fun x => decide (x ∉ acc ++ [b]))
          = rest.filter (fun x => decide (x ∉ acc)) := by
        apply List.filter_congr
        intro x hx
        have hxb : x ≠ b := fun hxb => hb_rest (hxb ▸ hx)
        simp [List.mem_append, hxb]
      rw [hfilter]
      simp

/-! ### Lemmas about the navigation merge -/

/-- Setting the children of a node yields exactly those children. -/
theorem getChildren_setChildren (n : NavNode) (cs : List NavNode) :
    (NavNode.setChildren n cs).getChildren = cs := by
  cases n; rfl

/-- Looking up the rewritten key after `updateLang` returns the new
sequence, provided the key was bound before. -/
theorem lookupLang_updateLang (items : List NavNode) :
    ∀ (L : List (String × List NavNode)) (v : List NavNode),
      lookupLang "swift" L = some v →
      lookupLang "swift" (updateLang "swift" items L) = some items := by
  intro L
  induction L with
  | nil => intro v h; cases h
  | cons kv rest ih =>
    obtain ⟨k, w⟩ := kv
    intro v h
    by_cases hk : k = "swift"
    · subst hk
      simp [lookupLang, updateLang]
    · simp only [lookupLang, if_neg hk] at h
      simp only [updateLang]
      rw [if_neg hk]
      simp only [lookupLang]
      rw [if_neg hk]
      exact ih v h

/-- A non-empty `"swift"` sequence means the key is actually bound. -/
theorem lookupLang_of_swiftItems_cons (d : Doc) (r : NavNode) (rest : List NavNode)
    (h : d.swiftItems = r :: rest) :
    lookupLang "swift" (d.interfaceLanguages.getD []) = some (r :: rest) := by
  unfold Doc.swiftItems at h
  cases hl : lookupLang "swift" (d.interfaceLanguages.getD []) with
  | none => rw [hl] at h; cases h
  | some v => rw [hl] at h; simp only [Option.getD_some] at h; rw [h]

/-- After `setSwift` on a document whose `"swift"` key is bound, the
`"swift"` sequence is the one just written. -/
theorem swiftItems_setSwift (d : Doc) (items : List NavNode) (r : NavNode)
    (rest : List NavNode) (h : d.swiftItems = r :: rest) :
    (d.setSwift items).swiftItems = items := by
  have hl := lookupLang_of_swiftItems_cons d r rest h
  cases hil : d.interfaceLanguages with
  | none => rw [hil] at hl; cases hl
  | some L =>
    rw [hil] at hl
    simp only [Option.getD_some] at hl
    unfold Doc.swiftItems Doc.setSwift
    simp only [hil]
    show (lookupLang "swift" ((Option.map (updateLang "swift" items) (some L)).getD [])).getD [] = items
    simp only [Option.map_some', Option.getD_some]
    rw [lookupLang_updateLang items L (r :: rest) hl]
    rfl

/-- `setSwift` only touches `interfaceLanguages`. -/
theorem setSwift_includedArchiveIdentifiers (d : Doc) (items : List NavNode) :
    (d.setSwift items).includedArchiveIdentifiers = d.includedArchiveIdentifiers := rfl

/-- If the primary `"swift"` sequence is empty the navigation merge is the
identity. -/
theorem mergeNav_nil_left (p s : Doc) (h : p.swiftItems = []) : mergeNav p s = p := by
  unfold mergeNav
  rw [h]

/-- If the secondary `"swift"` sequence is empty the navigation merge is
the identity. -/
theorem mergeNav_nil_right (p s : Doc) (h : s.swiftItems = []) : mergeNav p s = p := by
  unfold mergeNav
  cases hp : p.swiftItems with
  | nil => rfl
  | cons r rest => rw [h]

/-- The non-trivial case of the navigation merge, written out. -/
theorem mergeNav_cons (p s : Doc) (r : NavNode) (rest : List NavNode)
    (y : NavNode) (ys : List NavNode)
    (hp : p.swiftItems = r :: rest) (hs : s.swiftItems = y :: ys) :
    mergeNav p s
      = p.setSwift (NavNode.setChildren r (r.getChildren ++ (y :: ys)) :: rest) := by
  unfold mergeNav
  rw [hp, hs]

/-- The navigation merge never changes the identifier list. -/
theorem mergeNav_includedArchiveIdentifiers (p s : Doc) :
    (mergeNav p s).includedArchiveIdentifiers = p.includedArchiveIdentifiers := by
  unfold mergeNav
  cases hp : p.swiftItems with
  | nil => rfl
  | cons r rest =>
    cases hs : s.swiftItems with
    | nil => rfl
    | cons y ys => rfl

/-! ### Lemmas about the whole in-memory merge -/

/-- Updating the identifier field leaves the `"swift"` sequence alone. -/
theorem swiftItems_setIds (p : Doc) (ids : Option (List String)) :
    (Doc.mk ids p.interfaceLanguages p.extra).swiftItems = p.swiftItems := rfl

/-- The merged document's identifier list is always the loop's result. -/
theorem mergeDocs_fst_ids (p s : Doc) :
    (mergeDocs p s).1.includedArchiveIdentifiers
      = some (mergedIds (p.includedArchiveIdentifiers.getD [])
                        (s.includedArchiveIdentifiers.getD [])) := by
  unfold mergeDocs
  rw [mergeNav_includedArchiveIdentifiers]

/-- The reported count is the length of the secondary's `"swift"`
sequence, whatever happened to the tree. -/
theorem mergeDocs_count (p s : Doc) : (mergeDocs p s).2.1 = s.swiftItems.length := rfl

/-- The reported identifier list is the merged identifier list. -/
theorem mergeDocs_report_ids (p s : Doc) :
    (mergeDocs p s).2.2 = mergedIds (p.includedArchiveIdentifiers.getD [])
                                    (s.includedArchiveIdentifiers.getD []) := rfl

/-- The `"swift"` sequence of the merged document in the non-trivial case:
the root with the secondary sequence appended to its children, followed by
the untouched rest. -/
theorem mergeDocs_swift (p s : Doc) (r : NavNode) (rest : List NavNode)
    (y : NavNode) (ys : List NavNode)
    (hp : p.swiftItems = r :: rest) (hs : s.swiftItems = y :: ys) :
    (mergeDocs p s).1.swiftItems
      = NavNode.setChildren r (r.getChildren ++ (y :: ys)) :: rest := by
  have hp1s : (Doc.mk (some (mergedIds (p.includedArchiveIdentifiers.getD [])
      (s.includedArchiveIdentifiers.getD []))) p.interfaceLanguages p.extra).swiftItems
      = r :: rest := hp
  simp only [mergeDocs]
  rw [mergeNav_cons _ s r rest y ys hp1s hs]
  exact swiftItems_setSwift _ _ r rest hp1s

/-- When either `"swift"` sequence is empty, the merged document keeps the
primary's `interfaceLanguages` value unchanged. -/
theorem mergeDocs_interfaceLanguages_of_empty (p s : Doc)
    (h : p.swiftItems = [] ∨ s.swiftItems = []) :
    (mergeDocs p s).1.interfaceLanguages = p.interfaceLanguages := by
  have h1 : (Doc.mk (some (mergedIds (p.includedArchiveIdentifiers.getD [])
      (s.includedArchiveIdentifiers.getD []))) p.interfaceLanguages p.extra).swiftItems = []
      ∨ s.swiftItems = [] := h
  simp only [mergeDocs]
  rcases h1 with h1 | h1
  · rw [mergeNav_nil_left _ s h1]
  · rw [mergeNav_nil_right _ s h1]

/-! ### Lemmas about the whole script run -/

/-- The `"swift"` sequence is empty when `interfaceLanguages` is absent. -/
theorem swiftItems_of_no_langs (d : Doc) (h : d.interfaceLanguages = none) :
    d.swiftItems = [] := by
  unfold Doc.swiftItems
  rw [h]
  rfl

/-- When the secondary `"swift"` sequence is empty, the merged document
keeps the primary's `"swift"` sequence. -/
theorem mergeDocs_swiftItems_nil_right (p s : Doc) (h : s.swiftItems = []) :
    (mergeDocs p s).1.swiftItems = p.swiftItems := by
  simp only [mergeDocs]
  rw [mergeNav_nil_right _ s h]
  rfl

/-- When both reads succeed, the run ends in success reporting the
secondary `"swift"` length and the merged identifier list. -/
theorem script_outcome_ok (prog a d : String) (fs0 : String → Option Doc) (p s : Doc)
    (hp : fs0 (d ++ "/index/index.json") = some p)
    (hs : fs0 (a ++ "/index/index.json") = some s) :
    (script [prog, a, d] fs0).outcome
      = Outcome.ok s.swiftItems.length
          (mergedIds (p.includedArchiveIdentifiers.getD [])
                     (s.includedArchiveIdentifiers.getD [])) := by
  simp only [script]
  rw [hp, hs]
  rfl

/-- When both reads succeed, the run writes the merged document at the
primary path and leaves every other path untouched. -/
theorem script_fs_ok (prog a d : String) (fs0 : String → Option Doc) (p s : Doc)
    (hp : fs0 (d ++ "/index/index.json") = some p)
    (hs : fs0 (a ++ "/index/index.json") = some s) :
    (script [prog, a, d] fs0).fs
      = fun path => if path = d ++ "/index/index.json"
          then some (mergeDocs p s).1 else fs0 path := by
  simp only [script]
  rw [hp, hs]

/-! ### Concrete example documents, used to instantiate the theorems -/

/-- Root node of the primary example: one existing child `X`. -/
def exRoot : NavNode := NavNode.mk "Lists" (some [NavNode.mk "X" none])

/-- Secondary example top-level node `Y`. -/
def exY : NavNode := NavNode.mk "Y" none

/-- Secondary example top-level node `Z`. -/
def exZ : NavNode := NavNode.mk "Z" none

/-- Primary example document. -/
def exPrimary : Doc :=
  Doc.mk (some ["com.listkit.Lists"]) (some [("swift", [exRoot])]) "meta"

/-- Secondary example document with two top-level `"swift"` nodes. -/
def exSecondary : Doc :=
  Doc.mk (some ["com.listkit.ListKit"]) (some [("swift", [exY, exZ])]) "meta"

/-- A document with every optional field absent. -/
def exBareP : Doc := Doc.mk none none "bareP"

/-- Another document with every optional field absent. -/
def exBareS : Doc := Doc.mk none none "bareS"

/-- A primary document whose `interfaceLanguages` object has no `"swift"`
key at all. -/
def exNoSwiftP : Doc := Doc.mk none (some []) "noswift"

/-- A secondary document with exactly one top-level `"swift"` node. -/
def exOneS : Doc := Doc.mk none (some [("swift", [exY])]) "one"

/-- A two-file file system holding `p` at the primary path reached from
`docs-dir = "docs"` and `s` at the secondary path reached from
`archive = "archive"`. -/
def mkFS (p s : Doc) : String → Option Doc :=
  fun path =>
    if path = "docs/index/index.json" then some p
    else if path = "archive/index/index.json" then some s
    else none

/-! ### Claim C1 -/

/-- C1 as stated is false on inputs with repeated identifiers: with
primary list `A = []` and secondary list `B = ["b", "b"]` the code
appends `"b"` only once (the membership test sees the growing list), while
the claim's description `A` followed by every element of `B` not already
in `A` would keep both occurrences. -/
theorem C1_counterexample :
    ¬ (mergedIds [] ["b", "b"]
        = [] ++ (["b", "b"].filter fun b => decide (b ∉ ([] : List String)))
      ∧ (mergedIds [] ["b", "b"]).Nodup) := by
  decide

/-- C1 (amended): for duplicate-free identifier sequences `A` (primary)
and `B` (secondary), the merged sequence equals `A` followed by each
element of `B` not already in `A`, in `B`'s original relative order, and
no element appears twice in the merged sequence. -/
theorem C1_merged_ids_dedup (A B : List String) (hA : A.Nodup) (hB : B.Nodup) :
    mergedIds A B = A ++ B.filter (fun b => decide (b ∉ A))
    ∧ (mergedIds A B).Nodup :=
  ⟨mergeIdsLoop_eq_append_filter B A hB, mergeIdsLoop_nodup B A hA⟩

/-- C1 witness: the merge of the spec's Example 1 lists, through the
amended theorem. -/
theorem C1_merged_ids_dedup_witness :
    mergedIds ["com.listkit.Lists"] ["com.listkit.ListKit"]
      = ["com.listkit.Lists"]
        ++ (["com.listkit.ListKit"].filter
              fun b => decide (b ∉ (["com.listkit.Lists"] : List String)))
    ∧ (mergedIds ["com.listkit.Lists"] ["com.listkit.ListKit"]).Nodup :=
  C1_merged_ids_dedup ["com.listkit.Lists"] ["com.listkit.ListKit"]
    (by decide) (by decide)

/-! ### Claim C6 -/

/-- C6: merging the same secondary identifier list into an already-merged
primary list a second time returns the same identifier sequence as a
single merge, for every primary list `A` and secondary list `B`. -/
theorem C6_merged_ids_idempotent (A B : List String) :
    mergedIds (mergedIds A B) B = mergedIds A B :=
  mergedIds_idem A B

/-! ### Claim C2 -/

/-- C2: when both `"swift"` sequences are non-empty, the merged primary's
root node (first element of its `"swift"` sequence) has children equal to
its original children followed by the secondary's entire top-level node
sequence, as one contiguous run in that order; the remaining primary
nodes are untouched. -/
theorem C2_root_children_append (p s : Doc) (r : NavNode) (rest : List NavNode)
    (hp : p.swiftItems = r :: rest) (hs : s.swiftItems ≠ []) :
    ∃ r2, (mergeDocs p s).1.swiftItems = r2 :: rest
      ∧ r2.getChildren = r.getChildren ++ s.swiftItems := by
  rcases hy : s.swiftItems with _ | ⟨y, ys⟩
  · exact absurd hy hs
  · refine ⟨_, mergeDocs_swift p s r rest y ys hp hy, ?_⟩
    simp [getChildren_setChildren, hy]

/-- C2 witness: primary root with one child `X`, secondary nodes
`[Y, Z]`, through the theorem. -/
theorem C2_root_children_append_witness :
    exPrimary.swiftItems = exRoot :: [] ∧ exSecondary.swiftItems ≠ []
    ∧ ∃ r2, (mergeDocs exPrimary exSecondary).1.swiftItems = r2 :: []
        ∧ r2.getChildren = exRoot.getChildren ++ exSecondary.swiftItems :=
  ⟨rfl, by simp [exSecondary, Doc.swiftItems, lookupLang],
   C2_root_children_append exPrimary exSecondary exRoot [] rfl
     (by simp [exSecondary, Doc.swiftItems, lookupLang])⟩

/-! ### Claim C5 -/

/-- C5: running the merge a second time against an already-merged primary
with the same non-empty secondary appends the secondary's top-level nodes
to the root's children a second time (the navigation subtree is
duplicated), while the identifier list is unchanged by the second run. -/
theorem C5_remerge_duplicates_children (p s : Doc) (r : NavNode) (rest : List NavNode)
    (hp : p.swiftItems = r :: rest) (hs : s.swiftItems ≠ []) :
    ∃ r2, (mergeDocs (mergeDocs p s).1 s).1.swiftItems = r2 :: rest
      ∧ r2.getChildren = (r.getChildren ++ s.swiftItems) ++ s.swiftItems
      ∧ (mergeDocs (mergeDocs p s).1 s).1.includedArchiveIdentifiers
          = (mergeDocs p s).1.includedArchiveIdentifiers := by
  rcases hy : s.swiftItems with _ | ⟨y, ys⟩
  · exact absurd hy hs
  have h1 := mergeDocs_swift p s r rest y ys hp hy
  have h2 := mergeDocs_swift (mergeDocs p s).1 s _ rest y ys h1 hy
  refine ⟨_, h2, ?_, ?_⟩
  · simp [getChildren_setChildren, hy]
  · rw [mergeDocs_fst_ids, mergeDocs_fst_ids]
    simp only [Option.getD_some]
    rw [mergedIds_idem]

/-- C5 witness: remerging the example secondary duplicates `[Y, Z]` in the
root's children and keeps the identifier field, through the theorem. -/
theorem C5_remerge_duplicates_children_witness :
    exPrimary.swiftItems = exRoot :: [] ∧ exSecondary.swiftItems ≠ []
    ∧ ∃ r2, (mergeDocs (mergeDocs exPrimary exSecondary).1 exSecondary).1.swiftItems
          = r2 :: []
        ∧ r2.getChildren
            = (exRoot.getChildren ++ exSecondary.swiftItems) ++ exSecondary.swiftItems
        ∧ (mergeDocs (mergeDocs exPrimary exSecondary).1 exSecondary).1.includedArchiveIdentifiers
            = (mergeDocs exPrimary exSecondary).1.includedArchiveIdentifiers :=
  ⟨rfl, by simp [exSecondary, Doc.swiftItems, lookupLang],
   C5_remerge_duplicates_children exPrimary exSecondary exRoot [] rfl
     (by simp [exSecondary, Doc.swiftItems, lookupLang])⟩

/-! ### Claim C3 -/

/-- C3: when reading or parsing either input file fails (missing file or
malformed JSON, both modelled as `none` content), the run aborts with the
propagated error before any write: the file system after the run is the
file system before it. -/
theorem C3_read_failure_no_write (prog a d : String) (fs0 : String → Option Doc)
    (h : fs0 (d ++ "/index/index.json") = none ∨ fs0 (a ++ "/index/index.json") = none) :
    (script [prog, a, d] fs0).fs = fs0
    ∧ (script [prog, a, d] fs0).outcome = Outcome.readError := by
  simp only [script]
  rcases h with h | h
  · rw [h]
    exact ⟨rfl, rfl⟩
  · cases hp : fs0 (d ++ "/index/index.json") with
    | none => exact ⟨rfl, rfl⟩
    | some p => rw [h]; exact ⟨rfl, rfl⟩

/-- C3 witness: a run against an empty file system changes nothing, via
the theorem with the primary read failing. -/
theorem C3_read_failure_no_write_witness :
    (script ["prog", "archive", "docs"] (fun _ => none)).fs = (fun _ => none)
    ∧ (script ["prog", "archive", "docs"] (fun _ => none)).outcome = Outcome.readError :=
  C3_read_failure_no_write "prog" "archive" "docs" (fun _ => none) (Or.inl rfl)

/-! ### Claim C4 -/

/-- C4: when either document's `"swift"` sequence is empty or absent, the
merge leaves the primary's `interfaceLanguages` value unmodified, the
identifier merge still proceeds, and a run over two readable such files
ends in success (no error). -/
theorem C4_empty_swift_noop (p s : Doc)
    (h : p.swiftItems = [] ∨ s.swiftItems = []) :
    (mergeDocs p s).1.interfaceLanguages = p.interfaceLanguages
    ∧ (mergeDocs p s).1.includedArchiveIdentifiers
        = some (mergedIds (p.includedArchiveIdentifiers.getD [])
                          (s.includedArchiveIdentifiers.getD []))
    ∧ (script ["prog", "archive", "docs"] (mkFS p s)).outcome
        = Outcome.ok s.swiftItems.length
            (mergedIds (p.includedArchiveIdentifiers.getD [])
                       (s.includedArchiveIdentifiers.getD [])) :=
  ⟨mergeDocs_interfaceLanguages_of_empty p s h,
   mergeDocs_fst_ids p s,
   script_outcome_ok "prog" "archive" "docs" (mkFS p s) p s rfl rfl⟩

/-- C4 witness: a primary whose `interfaceLanguages` object lacks the
`"swift"` key merged with the example secondary, through the theorem. -/
theorem C4_empty_swift_noop_witness :
    (mergeDocs exNoSwiftP exSecondary).1.interfaceLanguages = exNoSwiftP.interfaceLanguages
    ∧ (mergeDocs exNoSwiftP exSecondary).1.includedArchiveIdentifiers
        = some (mergedIds [] ["com.listkit.ListKit"])
    ∧ (script ["prog", "archive", "docs"] (mkFS exNoSwiftP exSecondary)).outcome
        = Outcome.ok 2 (mergedIds [] ["com.listkit.ListKit"]) :=
  C4_empty_swift_noop exNoSwiftP exSecondary (Or.inl rfl)

/-! ### Claim C7 -/

/-- C7: absent fields are replaced by empty defaults and the merge still
completes: a missing primary identifier list behaves as the empty sequence
before the secondary's identifiers are appended (both in the stored and in
the reported list), a missing `interfaceLanguages` object on either side
makes the navigation merge a no-op, and a run over two readable such files
ends in success (no error). -/
theorem C7_missing_fields_defaults (p s : Doc) :
    (p.includedArchiveIdentifiers = none →
      (mergeDocs p s).1.includedArchiveIdentifiers
        = some (mergedIds [] (s.includedArchiveIdentifiers.getD []))
      ∧ (mergeDocs p s).2.2 = mergedIds [] (s.includedArchiveIdentifiers.getD []))
    ∧ (p.interfaceLanguages = none →
        (mergeDocs p s).1.interfaceLanguages = p.interfaceLanguages)
    ∧ (s.interfaceLanguages = none →
        (mergeDocs p s).1.interfaceLanguages = p.interfaceLanguages)
    ∧ (script ["prog", "archive", "docs"] (mkFS p s)).outcome
        = Outcome.ok s.swiftItems.length
            (mergedIds (p.includedArchiveIdentifiers.getD [])
                       (s.includedArchiveIdentifiers.getD [])) := by
  refine ⟨?_, ?_, ?_, ?_⟩
  · intro h
    constructor
    · rw [mergeDocs_fst_ids, h]
      rfl
    · rw [mergeDocs_report_ids, h]
      rfl
  · intro h
    exact mergeDocs_interfaceLanguages_of_empty p s (Or.inl (swiftItems_of_no_langs p h))
  · intro h
    exact mergeDocs_interfaceLanguages_of_empty p s (Or.inr (swiftItems_of_no_langs s h))
  · exact script_outcome_ok "prog" "archive" "docs" (mkFS p s) p s rfl rfl

/-- C7 witness: both documents with every optional field absent, through
the theorem. -/
theorem C7_missing_fields_defaults_witness :
    (mergeDocs exBareP exBareS).1.includedArchiveIdentifiers = some (mergedIds [] [])
    ∧ (mergeDocs exBareP exBareS).1.interfaceLanguages = exBareP.interfaceLanguages
    ∧ (script ["prog", "archive", "docs"] (mkFS exBareP exBareS)).outcome
        = Outcome.ok 0 (mergedIds [] []) :=
  ⟨((C7_missing_fields_defaults exBareP exBareS).1 rfl).1,
   (C7_missing_fields_defaults exBareP exBareS).2.1 rfl,
   (C7_missing_fields_defaults exBareP exBareS).2.2.2⟩

/-! ### Claim C8 -/

/-- C8: with an argument count other than exactly two positional arguments
(three entries of `argv` counting the program name), the run prints the
usage line to standard output, exits with code 1, attempts no file access
and writes nothing; with exactly two arguments and both reads succeeding
it exits with code 0. -/
theorem C8_usage_and_exit_codes (argv : List String) (fs0 : String → Option Doc) :
    (argv.length ≠ 3 →
      (script argv fs0).outcome = Outcome.usage
      ∧ Outcome.exitCode (script argv fs0).outcome = 1
      ∧ (script argv fs0).accessed = []
      ∧ (script argv fs0).stdout = [StdoutLine.usage (argv.headD "")]
      ∧ (script argv fs0).fs = fs0)
    ∧ (∀ prog a d p s, argv = [prog, a, d] →
        fs0 (d ++ "/index/index.json") = some p →
        fs0 (a ++ "/index/index.json") = some s →
        Outcome.exitCode (script argv fs0).outcome = 0) := by
  constructor
  · intro h
    match argv with
    | [] => exact ⟨rfl, rfl, rfl, rfl, rfl⟩
    | [x] => exact ⟨rfl, rfl, rfl, rfl, rfl⟩
    | [x, y] => exact ⟨rfl, rfl, rfl, rfl, rfl⟩
    | [x, y, z] => exact absurd rfl h
    | x :: y :: z :: w :: tl => exact ⟨rfl, rfl, rfl, rfl, rfl⟩
  · intro prog a d p s hargv hp hs
    subst hargv
    rw [script_outcome_ok prog a d fs0 p s hp hs]
    rfl

/-- C8 witness: a one-argument run is a pure usage failure, and a
two-argument run over readable files exits 0, through the theorem. -/
theorem C8_usage_and_exit_codes_witness :
    ((script ["onlyprog"] (fun _ => none)).outcome = Outcome.usage
      ∧ Outcome.exitCode (script ["onlyprog"] (fun _ => none)).outcome = 1
      ∧ (script ["onlyprog"] (fun _ => none)).accessed = []
      ∧ (script ["onlyprog"] (fun _ => none)).stdout = [StdoutLine.usage "onlyprog"]
      ∧ (script ["onlyprog"] (fun _ => none)).fs = (fun _ => none))
    ∧ Outcome.exitCode
        (script ["prog", "archive", "docs"] (mkFS exPrimary exSecondary)).outcome = 0 :=
  ⟨(C8_usage_and_exit_codes ["onlyprog"] (fun _ => none)).1 (by decide),
   (C8_usage_and_exit_codes ["prog", "archive", "docs"]
       (mkFS exPrimary exSecondary)).2 "prog" "archive" "docs"
     exPrimary exSecondary rfl rfl rfl⟩

/-! ### Claim C9 -/

/-- C9 as stated is false: the reported count is the length of the
secondary's `"swift"` sequence even when nothing is merged.  With a
primary whose `interfaceLanguages` object has no `"swift"` key and a
secondary with one top-level node, the script reports 1 while the
navigation tree gains 0 entries. -/
theorem C9_counterexample :
    ¬ ((mergeDocs exNoSwiftP exOneS).2.1 = actuallyMerged exNoSwiftP exOneS) := by
  decide

/-- C9 (amended): the reported merge count is the number of the
secondary's top-level `"swift"` entries, which equals the count actually
added to the navigation tree whenever the primary's `"swift"` sequence is
non-empty (in particular it is 2 in the spec's Example 3); the reported
identifier list is the one stored in the written document. -/
theorem C9_report_counts (p s : Doc) :
    (mergeDocs p s).2.1 = s.swiftItems.length
    ∧ (p.swiftItems ≠ [] → (mergeDocs p s).2.1 = actuallyMerged p s)
    ∧ (mergeDocs p s).2.2 = ((mergeDocs p s).1.includedArchiveIdentifiers).getD [] := by
  refine ⟨rfl, ?_, ?_⟩
  · intro h
    rcases hp : p.swiftItems with _ | ⟨r, rest⟩
    · exact absurd hp h
    rcases hy : s.swiftItems with _ | ⟨y, ys⟩
    · unfold actuallyMerged rootChildCount
      rw [mergeDocs_swiftItems_nil_right p s hy, mergeDocs_count, hy]
      simp
    · unfold actuallyMerged rootChildCount
      rw [mergeDocs_swift p s r rest y ys hp hy, mergeDocs_count, hp, hy]
      simp only [List.length_cons]
      simp [getChildren_setChildren]
  · rw [mergeDocs_fst_ids]
    rfl

/-- C9 witness: the spec's Example 3 (primary root with child `X`,
secondary `[Y, Z]`) reports merge count 2, through the amended theorem. -/
theorem C9_report_counts_witness :
    (mergeDocs exPrimary exSecondary).2.1 = 2
    ∧ (mergeDocs exPrimary exSecondary).2.1 = actuallyMerged exPrimary exSecondary
    ∧ (mergeDocs exPrimary exSecondary).2.2
        = ((mergeDocs exPrimary exSecondary).1.includedArchiveIdentifiers).getD [] :=
  ⟨(C9_report_counts exPrimary exSecondary).1,
   (C9_report_counts exPrimary exSecondary).2.1
     (by simp [exPrimary, Doc.swiftItems, lookupLang]),
   (C9_report_counts exPrimary exSecondary).2.2⟩

/-! ### Claim C10 -/

/-- C10: the merged primary always carries the
`includedArchiveIdentifiers` key (the script writes the merged list back
unconditionally), and when both inputs lacked it, its value is the empty
list. -/
theorem C10_ids_always_written (p s : Doc) :
    ((mergeDocs p s).1.includedArchiveIdentifiers).isSome = true
    ∧ (p.includedArchiveIdentifiers = none → s.includedArchiveIdentifiers = none →
        (mergeDocs p s).1.includedArchiveIdentifiers = some []) := by
  constructor
  · rw [mergeDocs_fst_ids]
    rfl
  · intro hp hs
    rw [mergeDocs_fst_ids, hp, hs]
    rfl

/-- C10 witness: two documents without the identifier key yield a written
document whose identifier list is present and empty, through the
theorem. -/
theorem C10_ids_always_written_witness :
    ((mergeDocs exBareP exBareS).1.includedArchiveIdentifiers).isSome = true
    ∧ (mergeDocs exBareP exBareS).1.includedArchiveIdentifiers = some [] :=
  ⟨(C10_ids_always_written exBareP exBareS).1,
   (C10_ids_always_written exBareP exBareS).2 rfl rfl⟩

end MergeDocsIndex
